import Mathlib

/-!
Shallow embedding of the `buggd` recording daemon, covering the parts of the
source that the verified claims are about:

* `src/drivers/leds.py` — the `Colour` palette, `COLOUR_THEORY` map and the
  `LED.set` hard-wired-channel check.
* `src/apps/buggd/factorytest.py` — the test-result dictionary, the LED
  encoding of results (`display_results_on_leds`), the modem RSSI poll loop,
  the results-file formatter (`get_results_string`), the parser
  (`passed_at_factory`) and the `run` control flow.
* `src/apps/buggd/main.py` — the per-artifact upload attempt of `ws_uploader`
  and `waraki_server_sync`, the `ws_uploader` reconnect loop (as a small-step
  state machine), the `continuous_recording` capture loop, and
  `blink_error_leds`.

Strings manipulated by the Python code (substring test `in`, `split(':')`,
`strip`, `lower`) are modelled over `List Char` so that every claim can be
evaluated on concrete inputs.  Files are modelled by their content: a results
file is the list of its lines, the filesystem seen by an uploader is an
association list from path to a content token.
-/

namespace Buggd

/-! ## Python string primitives used by the sources -/

/-- Python's `needle in hay` substring test, on character lists. -/
def listContainsSub (needle : List Char) : List Char → Bool
  | [] => needle.isEmpty
  | c :: cs => List.isPrefixOf needle (c :: cs) || listContainsSub needle cs

/-- Python's `needle in hay` substring test on strings. -/
def strContainsSub (hay needle : String) : Bool :=
  listContainsSub needle.data hay.data

/-- Python's `s.split(c)` for a one-character separator, on character lists.
Always returns at least one piece. -/
def splitOnCh (sep : Char) : List Char → List (List Char)
  | [] => [[]]
  | a :: as =>
    let rest := splitOnCh sep as
    if a == sep then
      [] :: rest
    else
      match rest with
      | x :: xs => (a :: x) :: xs
      | [] => [[a]]

/-- Python `str.isspace` characters relevant to `str.strip()`. -/
def pyIsSpace (c : Char) : Bool :=
  c == ' ' || c == '\t' || c == '\n' || c == '\r' || c == '\x0b' || c == '\x0c'

/-- Python's `s.strip()`: remove leading and trailing whitespace. -/
def pyStrip (s : List Char) : List Char :=
  ((s.dropWhile pyIsSpace).reverse.dropWhile pyIsSpace).reverse

/-- Python's `s.lower()` (ASCII is all that occurs here). -/
def pyLower (s : List Char) : List Char :=
  s.map Char.toLower

/-- Python's `str(b)` for a boolean: `"True"` or `"False"`. -/
def pyBoolStr (b : Bool) : String :=
  if b then "True" else "False"

/-! ## `src/drivers/leds.py` -/

/-- The `Colour` enum of `leds.py` (`OFF` is an alias of `BLACK` in the
source, so it is not a separate constructor). -/
inductive Colour where
  | RED
  | GREEN
  | BLUE
  | YELLOW
  | CYAN
  | MAGENTA
  | WHITE
  | BLACK
deriving DecidableEq, Repr

/-- The `COLOUR_THEORY` dictionary: colour to RGB triple, with components the
integers 0 and 1, exactly as in the source. -/
def COLOUR_THEORY : Colour → Nat × Nat × Nat
  | .RED => (1, 0, 0)
  | .GREEN => (0, 1, 0)
  | .BLUE => (0, 0, 1)
  | .YELLOW => (1, 1, 0)
  | .CYAN => (0, 1, 1)
  | .MAGENTA => (1, 0, 1)
  | .WHITE => (1, 1, 1)
  | .BLACK => (0, 0, 0)

/-- A channel of an RGB LED: either a GPIO pin number (Python `int`) or a
hard-wired boolean (Python `bool`, as on the bottom LED `(True, 1, 0)`).
`isinstance(element[1], bool)` in the source distinguishes the two. -/
inductive Chan where
  | pin (n : Nat)
  | wired (v : Bool)
deriving DecidableEq, Repr

/-- An RGB LED: the three channels, in the dictionary order red, green, blue
used by `LED.__init__`. -/
structure LED where
  red : Chan
  green : Chan
  blue : Chan
deriving DecidableEq, Repr

/-- The per-channel check of `LED.set`: a hard-wired channel clashes with a
requested component when the Python comparison `element[1] == col[index]`
fails, i.e. when the bool (compared as 0 or 1) differs from the component. -/
def chanClash (ch : Chan) (component : Nat) : Bool :=
  match ch with
  | .pin _ => false
  | .wired v => (if v then 1 else 0) != component

/-- The source's `LED.set`: first walk the channels in dictionary order and
raise `ValueError` on the first hard-wired channel that cannot produce the
requested component; only if no channel clashes, issue the three
`driver.set` writes (channel, component value).  The returned list is the
sequence of writes; an error carries the offending colour. -/
def LED.set (led : LED) (colour : Colour) : Except Colour (List (Chan × Nat)) :=
  let col := COLOUR_THEORY colour
  if chanClash led.red col.1 then
    .error colour
  else if chanClash led.green col.2.1 then
    .error colour
  else if chanClash led.blue col.2.2 then
    .error colour
  else
    .ok [(led.red, col.1), (led.green, col.2.1), (led.blue, col.2.2)]

/-- Claim-side predicate: some channel of the LED is hard-wired to a value
different from the colour's value on the corresponding RGB component. -/
def hardWiredMismatch (led : LED) (colour : Colour) : Bool :=
  let col := COLOUR_THEORY colour
  chanClash led.red col.1 || chanClash led.green col.2.1 || chanClash led.blue col.2.2

/-! ## `src/apps/buggd/factorytest.py` — results dictionary and LED encoding -/

/-- The fixed result dictionary of `FactoryTest.__init__`, one boolean per
test, in insertion order. -/
structure Results where
  modem_enumerates : Bool
  modem_responsive : Bool
  modem_sim_readable : Bool
  modem_towers_found : Bool
  i2s_bridge_responding : Bool
  rtc_responding : Bool
  led_controller_responding : Bool
  internal_microphone_recording : Bool
  external_microphone_recording : Bool
deriving DecidableEq, Repr

/-- `self.results.items()` in dictionary insertion order. -/
def resultsItems (r : Results) : List (String × Bool) :=
  [ ("modem_enumerates", r.modem_enumerates),
    ("modem_responsive", r.modem_responsive),
    ("modem_sim_readable", r.modem_sim_readable),
    ("modem_towers_found", r.modem_towers_found),
    ("i2s_bridge_responding", r.i2s_bridge_responding),
    ("rtc_responding", r.rtc_responding),
    ("led_controller_responding", r.led_controller_responding),
    ("internal_microphone_recording", r.internal_microphone_recording),
    ("external_microphone_recording", r.external_microphone_recording) ]

/-- `all(self.results.values())`: the AND over every boolean entry. -/
def allResultsPassed (r : Results) : Bool :=
  (resultsItems r).all (fun kv => kv.2)

/-- The failed tests of one category: keys whose name contains the category's
marker substring and whose value is `False`, in dictionary order, exactly the
two comprehensions of `display_results_on_leds`. -/
def categoryFailures (marker : String) (r : Results) : List String :=
  ((resultsItems r).filter
    (fun kv => strContainsSub kv.1 marker && !kv.2)).map (fun kv => kv.1)

/-- The `modem_failures` list: keys containing `"modem"`. -/
def modem_failures (r : Results) : List String := categoryFailures "modem" r

/-- The `i2c_failures` list: keys containing `"responding"`. -/
def i2c_failures (r : Results) : List String := categoryFailures "responding" r

/-- The `recording_failures` list: keys containing `"recording"`. -/
def recording_failures (r : Results) : List String := categoryFailures "recording" r

/-- Middle-LED colour for a single modem failure (`match modem_failures[0]`). -/
def modemFailureColour (k : String) : Colour :=
  if k = "modem_enumerates" then .RED
  else if k = "modem_responsive" then .MAGENTA
  else if k = "modem_sim_readable" then .BLUE
  else if k = "modem_towers_found" then .YELLOW
  else .BLACK

/-- Middle-LED colour for a single I2C failure (`match i2c_failures[0]`). -/
def i2cFailureColour (k : String) : Colour :=
  if k = "i2s_bridge_responding" then .RED
  else if k = "rtc_responding" then .CYAN
  else if k = "led_controller_responding" then .MAGENTA
  else .BLACK

/-- Middle-LED colour for a single recording failure
(`match recording_failures[0]`). -/
def recordingFailureColour (k : String) : Colour :=
  if k = "internal_microphone_recording" then .RED
  else if k = "external_microphone_recording" then .YELLOW
  else .BLACK

/-- The source's `display_results_on_leds`, as a pure function from the
result set to the (top, middle) LED colours it sets.  In `run`, the method is
invoked with `self.all_passed = all(self.results.values())`, which is inlined
here as `allResultsPassed`.  The middle LED was set to `BLACK` at the start of
`run`, so branches that do not set it leave `BLACK`. -/
def display_results_on_leds (r : Results) : Colour × Colour :=
  if allResultsPassed r then
    (.GREEN, .BLACK)
  else
    let mf := modem_failures r
    let i2cf := i2c_failures r
    let rf := recording_failures r
    let failingCats :=
      (if mf.isEmpty then 0 else 1) + (if i2cf.isEmpty then 0 else 1)
        + (if rf.isEmpty then 0 else 1)
    if failingCats > 1 then
      (.WHITE, .BLACK)
    else if !mf.isEmpty then
      (.YELLOW, if mf.length > 1 then .WHITE
                else modemFailureColour (mf.headD ""))
    else if !i2cf.isEmpty then
      (.RED, if i2cf.length > 1 then .WHITE
             else i2cFailureColour (i2cf.headD ""))
    else if !rf.isEmpty then
      (.BLUE, if rf.length > 1 then .WHITE
              else recordingFailureColour (rf.headD ""))
    else
      (.MAGENTA, .BLACK)

/-! ## `src/apps/buggd/factorytest.py` — results file, parser and `run` -/

/-- Modelled from the spec: "a device-serial discovery collaborator supplies a
stable identifier used in reports and directory paths" — `discover_serial` is
implemented in `utils.py`, which is not among the sources, so it is modelled
as a fixed CPU-serial-style identifier. -/
def discover_serial : String := "10000000fa1afe1a"

/-- The source's `get_results_string`, as the list of lines of the produced
string (the Python string split on every newline; the trailing `"\n\n"`
yields the two final empty lines). -/
def get_results_string (r : Results) (all_passed : Bool) : List String :=
  [ "",
    "Factory Self-Test Results:",
    "--------------------------",
    "Device Serial: " ++ discover_serial ]
  ++ (resultsItems r).map (fun kv => kv.1 ++ ": " ++ pyBoolStr kv.2)
  ++ [ "all_tests_passed: " ++ pyBoolStr all_passed,
       "-----------------------",
       (if all_passed then "Factory Self-Test PASS!" else "Factory Self-Test FAIL!"),
       "",
       "" ]

/-- The loop body of `passed_at_factory`: scan the file's lines for the first
one containing `all_tests_passed`; unpack `_, value = line.split(':')` (a
line with other than exactly one colon raises `ValueError`, which the
enclosing handler converts to `False`); compare `value.strip().lower()` with
`"true"`.  Falling off the loop returns Python `None`, modelled as `none`. -/
def passedScan : List String → Option Bool
  | [] => none
  | l :: rest =>
    if strContainsSub l "all_tests_passed" then
      match splitOnCh ':' l.data with
      | [_, v] => some (pyLower (pyStrip v) == "true".data)
      | _ => some false
    else passedScan rest

/-- The source's `passed_at_factory`: the results file is modelled by its
content, `none` meaning the file does not exist.  A missing file raises
`FileNotFoundError`, caught and turned into `False`; otherwise the lines are
scanned. -/
def passed_at_factory (file : Option (List String)) : Option Bool :=
  match file with
  | none => some false
  | some lines => passedScan lines

/-- Observable outcome of `FactoryTest.run`: the returned boolean, the final
`all_passed` attribute, the (top, middle) LED colours, and the content of the
results file if it was written. -/
structure RunOutcome where
  ret : Bool
  all_passed : Bool
  leds : Colour × Colour
  written : Option (List String)
deriving DecidableEq, Repr

/-- The source's `FactoryTest.run` control flow.  The three booleans are the
completion results of `test_modem`, `test_i2c_devices` and `test_recording`
(whether each group ran to conclusion), and `r` is the results dictionary
after those tests mutated it.  Only if `all(completed)` holds does `run`
compute `all_passed`, drive the LEDs from the results and write the results
file; otherwise it sets the LEDs to MAGENTA/RED and returns `False`, with
`all_passed` left at its initial `False` and nothing written. -/
def FactoryTest.run (completed_modem completed_i2c completed_recording : Bool)
    (r : Results) : RunOutcome :=
  if completed_modem && completed_i2c && completed_recording then
    let ap := allResultsPassed r
    { ret := true, all_passed := ap, leds := display_results_on_leds r,
      written := some (get_results_string r ap) }
  else
    { ret := false, all_passed := false, leds := (.MAGENTA, .RED),
      written := none }

/-! ## `src/apps/buggd/factorytest.py` — the modem RSSI poll of `test_modem` -/

/-- Python truthiness combined with the guard `rssi and rssi != 99`: the
`if` breaks only when `rssi` is truthy (not `None` and not `0`) and differs
from 99. -/
def rssiBreaks (x : Option Nat) : Bool :=
  match x with
  | none => false
  | some v => v != 0 && v != 99

/-- The recorded criterion `rssi is not None and rssi != 99` (the claim's
"non-absent reading"). -/
def rssiNonAbsent (x : Option Nat) : Bool :=
  match x with
  | none => false
  | some v => v != 99

/-- The `while tries > 0` poll loop of `test_modem`: `readings i` is the
value returned by the i-th call of `modem.get_rssi()`.  Each iteration polls
once, sleeps one second, decrements `tries`, and breaks on `rssiBreaks`.
Returns the final value of the `rssi` variable and the number of polls
performed.  The first component is `none` also in the (unreachable for
`tries = 6`) zero-iteration case where `rssi` stays unbound. -/
def pollRssi (readings : Nat → Option Nat) : Nat → Nat → Option Nat × Nat
  | _, 0 => (none, 0)
  | i, t + 1 =>
    let r := readings i
    if rssiBreaks r then (r, 1)
    else
      match t with
      | 0 => (r, 1)
      | Nat.succ u =>
        let res := pollRssi readings (i + 1) (u + 1)
        (res.1, res.2 + 1)

/-- The `modem_towers_found` entry computed by `test_modem`, together with
the number of `get_rssi` polls performed: poll with `tries = 6`, then apply
the `rssi is not None and rssi != 99` criterion to the final reading. -/
def modem_towers_found (readings : Nat → Option Nat) : Bool × Nat :=
  let p := pollRssi readings 0 6
  (rssiNonAbsent p.1, p.2)

/-! ## `src/apps/buggd/main.py` — `blink_error_leds` -/

/-- One second of the `while running_t < dur` loop per element: the LED
level shown during that second (`state` starts at 1 and is negated each
iteration).  The argument is the remaining count `dur - running_t`. -/
def blinkLoop : Nat → Bool → List Bool
  | 0, _ => []
  | Nat.succ k, st => st :: blinkLoop k (!st)

/-- Observable outcome of `blink_error_leds`: either the function returns
(with the blink pattern displayed and whether `sudo reboot` was issued), or
it never returns (`while True: time.sleep(60)`), with the pattern blinked
before sleeping. -/
inductive BlinkOutcome where
  | comesBack (pattern : List Bool) (rebooted : Bool)
  | sleepsForever (pattern : List Bool)
deriving DecidableEq, Repr

/-- The source's `blink_error_leds` with the module constant `REBOOT_ALLOWED`
as a parameter and `dur` in seconds (`None` modelled as `none`).  With a
finite duration it blinks for `dur` seconds, then issues a reboot exactly
when allowed, and returns.  With `dur = None` it sleeps forever without
blinking and never reaches the reboot check. -/
def blink_error_leds (rebootAllowed : Bool) : Option Nat → BlinkOutcome
  | some dur => .comesBack (blinkLoop dur true) rebootAllowed
  | none => .sleepsForever []

/-! ## `src/apps/buggd/main.py` — per-artifact upload attempts -/

/-- The local filesystem visible to an uploader: an association list from
path to a content token (paths are unique). -/
def fsRemove (fs : List (String × Nat)) (p : String) : List (String × Nat) :=
  fs.filter (fun kv => !(kv.1 == p))

/-- One iteration body of the inner `ws_uploader` loop for a dequeued
`filepath`: open and read the file (raises if absent), `ws.send_binary` the
bytes (`sendOk` is whether that call returns without error), and only then
`os.remove` the file.  Any exception is caught by the surrounding
`try/except`, leaving the filesystem untouched.  Returns the new filesystem
and whether the send succeeded. -/
def ws_upload_item (fs : List (String × Nat)) (filepath : String)
    (sendOk : Bool) : List (String × Nat) × Bool :=
  match fs.lookup filepath with
  | none => (fs, false)
  | some _ => if sendOk then (fsRemove fs filepath, true) else (fs, false)

/-- One per-file attempt of the `waraki_server_sync` walk: open the file,
`requests.post` it (`postReturns` is whether the call returns a response),
`response.raise_for_status()` (`statusOk` is whether the status is
non-error), and only then `os.remove`.  A raise anywhere is caught by the
per-file `except`, leaving the file in place. -/
def waraki_upload_item (fs : List (String × Nat)) (filepath : String)
    (postReturns statusOk : Bool) : List (String × Nat) × Bool :=
  match fs.lookup filepath with
  | none => (fs, false)
  | some _ =>
    if postReturns && statusOk then (fsRemove fs filepath, true)
    else (fs, false)

/-! ## `src/apps/buggd/main.py` — the `ws_uploader` loop as a state machine

The uploader thread is modelled as a small-step machine.  One step executes
one atomic action of the Python code.  The environment's choices that the
code branches on — whether `websocket.create_connection` succeeds and
whether `ws.send_binary` returns without error — are supplied per step by a
`WsOracle`.  The shared shutdown event is the `stop` field; the code never
writes it, it is set externally before the runs considered in the theorems.
`q.get()` has no timeout in the source, so at `getWait` with an empty queue
the machine stays in place: no step is enabled for the blocked thread. -/

/-- Program points of `ws_uploader`. -/
inductive WsPC where
  | outerCheck
  | connecting
  | sleeping
  | innerCheck
  | getWait
  | processing (f : String)
  | closing
  | exited
deriving DecidableEq, Repr

/-- Environment choices for one step. -/
structure WsOracle where
  connectOk : Bool
  sendOk : Bool
deriving DecidableEq, Repr

/-- State of the uploader thread and its environment: program point, the
shutdown flag, the bounded queue's content, the filesystem, the number of
successful connects so far, the number of 5-second retry sleeps, elapsed
sleep time in seconds, and the number of dequeued items fully processed. -/
structure WsState where
  pc : WsPC
  stop : Bool
  queue : List String
  fs : List (String × Nat)
  connects : Nat
  sleeps : Nat
  time : Nat
  itemsDone : Nat
deriving DecidableEq, Repr

/-- One small step of `ws_uploader`.  `outerCheck` is the guard of
`while not stop_event.is_set()` around the connect; `connecting` is
`websocket.create_connection` (on failure control reaches the outer
`except`, which sleeps 5 seconds); `innerCheck` is the inner loop guard;
`getWait` is `q.get()` (it blocks, i.e. the state is unchanged, while the
queue is empty); `processing f` is one `ws_upload_item` body — note that an
error raised by the send is caught by the inner `try/except`, so control
returns to `innerCheck` with the same connection; `closing` is `ws.close()`
after the inner loop ends. -/
def ws_uploader_step (o : WsOracle) (s : WsState) : WsState :=
  match s.pc with
  | .outerCheck =>
    if s.stop then { s with pc := .exited } else { s with pc := .connecting }
  | .connecting =>
    if o.connectOk then
      { s with pc := .innerCheck, connects := s.connects + 1 }
    else
      { s with pc := .sleeping }
  | .sleeping =>
    { s with pc := .outerCheck, sleeps := s.sleeps + 1, time := s.time + 5 }
  | .innerCheck =>
    if s.stop then { s with pc := .closing } else { s with pc := .getWait }
  | .getWait =>
    match s.queue with
    | [] => s
    | f :: rest => { s with pc := .processing f, queue := rest }
  | .processing f =>
    let res := ws_upload_item s.fs f o.sendOk
    { s with pc := .innerCheck, fs := res.1, itemsDone := s.itemsDone + 1 }
  | .closing => { s with pc := .outerCheck }
  | .exited => s

/-- Run the uploader machine over a list of per-step oracle choices. -/
def ws_run (os : List WsOracle) (s : WsState) : WsState :=
  os.foldl (fun st o => ws_uploader_step o st) s

/-! ## `src/apps/buggd/main.py` — the `continuous_recording` capture loop -/

/-- State of the capture loop: still looping, or exited, with the number of
completed `record_sensor` iterations. -/
inductive CapState where
  | looping (items : Nat)
  | exitedCap (items : Nat)
deriving DecidableEq, Repr

/-- One iteration of `while not die.is_set(): record_sensor(...)`: if the
shutdown flag is observed the loop exits; otherwise one full
`record_sensor` item completes. -/
def continuous_recording_step (stop : Bool) : CapState → CapState
  | .looping n => if stop then .exitedCap n else .looping (n + 1)
  | .exitedCap n => .exitedCap n

/-! ## Claim-side definitions and concrete scenario inputs

The `spec...` definitions below follow the words of the claims about the
factory-test LED encoding (which tests of a category failed, and the
specific colour assigned to each test), to be compared against the
code-derived `display_results_on_leds`. -/

/-- Specific colours of the failing modem tests, in test order. -/
def specModemFailCols (r : Results) : List Colour :=
  (if r.modem_enumerates then [] else [.RED])
  ++ (if r.modem_responsive then [] else [.MAGENTA])
  ++ (if r.modem_sim_readable then [] else [.BLUE])
  ++ (if r.modem_towers_found then [] else [.YELLOW])

/-- Specific colours of the failing bus-device (I2C) tests, in test order. -/
def specI2cFailCols (r : Results) : List Colour :=
  (if r.i2s_bridge_responding then [] else [.RED])
  ++ (if r.rtc_responding then [] else [.CYAN])
  ++ (if r.led_controller_responding then [] else [.MAGENTA])

/-- Specific colours of the failing recording tests, in test order. -/
def specRecFailCols (r : Results) : List Colour :=
  (if r.internal_microphone_recording then [] else [.RED])
  ++ (if r.external_microphone_recording then [] else [.YELLOW])

/-- How many of the three test categories contain at least one failure. -/
def specFailingCategories (r : Results) : Nat :=
  (if (specModemFailCols r).isEmpty then 0 else 1)
  + (if (specI2cFailCols r).isEmpty then 0 else 1)
  + (if (specRecFailCols r).isEmpty then 0 else 1)

/-- The claim for a single failing category: the top LED shows the category
colour, the middle LED shows the single failing test's specific colour when
exactly one test of the category failed, and WHITE when several did. -/
@[reducible] def catClaim (catCols : List Colour) (catColour : Colour)
    (td : Colour × Colour) : Prop :=
  td.1 = catColour
  ∧ (catCols.length = 1 → td.2 = catCols.headD .BLACK)
  ∧ (catCols.length > 1 → td.2 = .WHITE)

/-- The full factory-LED claim for one result set, in the words of the spec:
all-pass gives a GREEN top LED; with failures in more than one category the
top LED is WHITE; with failures in exactly one category, `catClaim` for that
category with its colour (modem YELLOW, bus devices RED, recording BLUE). -/
@[reducible] def ledClaim (r : Results) : Prop :=
  (allResultsPassed r = true → (display_results_on_leds r).1 = .GREEN)
  ∧ (allResultsPassed r = false →
      (specFailingCategories r > 1 → (display_results_on_leds r).1 = .WHITE)
      ∧ (¬ (specModemFailCols r).isEmpty ∧ (specI2cFailCols r).isEmpty
            ∧ (specRecFailCols r).isEmpty →
          catClaim (specModemFailCols r) .YELLOW (display_results_on_leds r))
      ∧ ((specModemFailCols r).isEmpty ∧ ¬ (specI2cFailCols r).isEmpty
            ∧ (specRecFailCols r).isEmpty →
          catClaim (specI2cFailCols r) .RED (display_results_on_leds r))
      ∧ ((specModemFailCols r).isEmpty ∧ (specI2cFailCols r).isEmpty
            ∧ ¬ (specRecFailCols r).isEmpty →
          catClaim (specRecFailCols r) .BLUE (display_results_on_leds r)))

/-- A reading sequence whose first poll is the valid RSSI value 0 (not
`None` and not the absent value 99) and whose later polls return nothing. -/
def readingsZero : Nat → Option Nat := fun i => if i = 0 then some 0 else none

/-- An uploader blocked in `q.get()` on an empty queue after the shutdown
event has been set. -/
def wsBlocked : WsState :=
  { pc := .getWait, stop := true, queue := [], fs := [], connects := 1,
    sleeps := 0, time := 0, itemsDone := 0 }

/-- An uploader at the inner loop guard after the shutdown event has been
set. -/
def wsInnerStop : WsState :=
  { pc := .innerCheck, stop := true, queue := [], fs := [], connects := 1,
    sleeps := 0, time := 0, itemsDone := 0 }

/-- A fresh uploader with one queued artifact on disk, about to connect and
then suffer a send error. -/
def wsSendFail : WsState :=
  { pc := .outerCheck, stop := false, queue := ["f1"], fs := [("f1", 7)],
    connects := 0, sleeps := 0, time := 0, itemsDone := 0 }

/-! ## Helper lemmas -/

/-- A line not containing the key is skipped by the `passed_at_factory`
scan. -/
theorem passedScan_skip (l : String) (rest : List String)
    (h : strContainsSub l "all_tests_passed" = false) :
    passedScan (l :: rest) = passedScan rest := by
  simp [passedScan, h]

/-- After `os.remove`, the path no longer resolves. -/
theorem lookup_fsRemove (fs : List (String × Nat)) (p : String) :
    (fsRemove fs p).lookup p = none := by
  induction fs with
  | nil => rfl
  | cons kv l ih =>
    by_cases h : (kv.1 == p) = true
    · simpa [fsRemove, List.filter_cons, h] using ih
    · have h' : (kv.1 == p) = false := by simpa using h
      have hpk : (p == kv.1) = false := by
        cases hc : (p == kv.1) with
        | false => rfl
        | true =>
          have hpq : p = kv.1 := eq_of_beq hc
          rw [hpq] at h'
          simp at h'
      rcases kv with ⟨k, v⟩
      simp only [fsRemove, List.filter_cons] at ih ⊢
      simp only [h', Bool.not_false, if_pos]
      simpa [List.lookup, hpk] using ih

/-- A reading that makes the poll loop break is a non-absent reading. -/
theorem rssiBreaks_nonAbsent (x : Option Nat) (h : rssiBreaks x = true) :
    rssiNonAbsent x = true := by
  cases x with
  | none => simp [rssiBreaks] at h
  | some v =>
    simp only [rssiBreaks, Bool.and_eq_true] at h
    simp [rssiNonAbsent, h.2]

/-- The blink loop runs for exactly the requested number of seconds. -/
theorem blinkLoop_length (d : Nat) (st : Bool) : (blinkLoop d st).length = d := by
  induction d generalizing st with
  | zero => rfl
  | succ k ih => simp [blinkLoop, ih]

/-- The blink loop alternates the LED level every second. -/
theorem blinkLoop_getD (d t : Nat) (st : Bool) (h : t < d) :
    (blinkLoop d st).getD t false = (if t % 2 = 0 then st else !st) := by
  induction d generalizing st t with
  | zero => omega
  | succ k ih =>
    cases t with
    | zero => simp [blinkLoop]
    | succ u =>
      have hu : u < k := by omega
      have hrec := ih u (!st) hu
      simp only [blinkLoop, List.getD_cons_succ, hrec]
      rcases Nat.mod_two_eq_zero_or_one u with hm | hm <;>
        simp [Nat.add_mod, hm]

/-- No single step of the uploader machine leaves the loop or sets the stop
flag while the shutdown event is unset. -/
theorem ws_step_no_exit (o : WsOracle) (s : WsState)
    (h1 : s.stop = false) (h2 : s.pc ≠ WsPC.exited) :
    (ws_uploader_step o s).stop = false
    ∧ (ws_uploader_step o s).pc ≠ WsPC.exited := by
  cases hpc : s.pc <;>
    simp_all [ws_uploader_step] <;>
    repeat' split <;> simp_all

/-! ## Claim C1 -/

/-- Claim C1: for an upload attempt of the WebSocketSafe uploader
(`ws_uploader`) and of the HttpPolling sync pass (`waraki_server_sync`) on a
file that exists, the artifact is deleted iff the send call
(`ws.send_binary`, resp. `requests.post` plus `raise_for_status`) returned
without error, and when the send raises the filesystem is left untouched. -/
theorem upload_artifact_delete_iff (fs : List (String × Nat)) (p : String)
    (dat : Nat) (sOk postOk stOk : Bool) (hp : fs.lookup p = some dat) :
    ((ws_upload_item fs p sOk).1.lookup p = none ↔ sOk = true)
    ∧ (sOk = false → (ws_upload_item fs p sOk).1 = fs)
    ∧ ((waraki_upload_item fs p postOk stOk).1.lookup p = none
        ↔ (postOk && stOk) = true)
    ∧ ((postOk && stOk) = false → (waraki_upload_item fs p postOk stOk).1 = fs) := by
  cases sOk <;> cases hps : (postOk && stOk) <;>
    simp [ws_upload_item, waraki_upload_item, hp, hps, lookup_fsRemove]

/-- Witness for C1: one file, a successful websocket send (deleted) and a
waraki attempt whose `raise_for_status` raised (left in place). -/
theorem upload_artifact_delete_iff_witness :
    (((ws_upload_item [("a.mp3", 1)] "a.mp3" true).1.lookup "a.mp3" = none)
        ↔ true = true)
    ∧ (true = false → (ws_upload_item [("a.mp3", 1)] "a.mp3" true).1 = [("a.mp3", 1)])
    ∧ (((waraki_upload_item [("a.mp3", 1)] "a.mp3" true false).1.lookup "a.mp3" = none)
        ↔ (true && false) = true)
    ∧ ((true && false) = false →
        (waraki_upload_item [("a.mp3", 1)] "a.mp3" true false).1 = [("a.mp3", 1)]) :=
  upload_artifact_delete_iff [("a.mp3", 1)] "a.mp3" 1 true true false (by decide)

/-! ## Claim C2 -/

/-- Counterexample to C2 as stated: an uploader blocked in `q.get()` on an
empty queue with the shutdown event already set is a fixed point of the
machine for every oracle choice — `q.get()` has no timeout, so the thread
never unblocks and the loop never reaches the exit, contradicting "an
uploader blocked in a queue get eventually unblocks and exits". -/
theorem shutdown_blocked_get_counterexample :
    ws_uploader_step ⟨true, true⟩ wsBlocked = wsBlocked
    ∧ ws_uploader_step ⟨true, false⟩ wsBlocked = wsBlocked
    ∧ ws_uploader_step ⟨false, true⟩ wsBlocked = wsBlocked
    ∧ ws_uploader_step ⟨false, false⟩ wsBlocked = wsBlocked
    ∧ wsBlocked.stop = true ∧ wsBlocked.pc ≠ WsPC.exited := by
  decide

/-- Claim C2 as amended: once the shutdown event is set, the uploader loop
exits after completing at most one more in-flight item provided its queue
gets return — from the outer guard in one step with no further item, from
the inner guard in three steps with no further item, from a get on a
non-empty queue in five steps with exactly one further item — and the
capture loop exits at its next guard check with no further item.  (No claim
is made for a get on an empty queue: see the counterexample.) -/
theorem shutdown_bounded_exit (s : WsState) (o1 o2 o3 o4 o5 : WsOracle)
    (hstop : s.stop = true) :
    (s.pc = .outerCheck →
      (ws_run [o1] s).pc = .exited ∧ (ws_run [o1] s).itemsDone = s.itemsDone)
    ∧ (s.pc = .innerCheck →
        (ws_run [o1, o2, o3] s).pc = .exited
        ∧ (ws_run [o1, o2, o3] s).itemsDone = s.itemsDone)
    ∧ (∀ f rest, s.pc = .getWait → s.queue = f :: rest →
        (ws_run [o1, o2, o3, o4, o5] s).pc = .exited
        ∧ (ws_run [o1, o2, o3, o4, o5] s).itemsDone = s.itemsDone + 1)
    ∧ (∀ n, continuous_recording_step true (.looping n) = .exitedCap n) := by
  refine ⟨?_, ?_, ?_, fun n => rfl⟩
  · intro hpc
    simp [ws_run, ws_uploader_step, hpc, hstop]
  · intro hpc
    simp [ws_run, ws_uploader_step, hpc, hstop]
  · intro f rest hpc hq
    simp [ws_run, ws_uploader_step, hpc, hq, hstop]

/-- Witness for C2: from the stopped inner guard the machine exits in three
steps having processed no further item. -/
theorem shutdown_bounded_exit_witness :
    (ws_run [⟨true, true⟩, ⟨true, true⟩, ⟨true, true⟩] wsInnerStop).pc = WsPC.exited
    ∧ (ws_run [⟨true, true⟩, ⟨true, true⟩, ⟨true, true⟩] wsInnerStop).itemsDone
      = wsInnerStop.itemsDone :=
  (shutdown_bounded_exit wsInnerStop ⟨true, true⟩ ⟨true, true⟩ ⟨true, true⟩
    ⟨true, true⟩ ⟨true, true⟩ rfl).2.1 rfl

/-! ## Claim C3 -/

/-- Counterexample to C3 as stated: run the uploader from a fresh start
through connect, dequeue of `f1` and a send that raises.  After the failed
send the machine is back at the inner guard with the same connection
(`connects` still 1), no retry sleep happened (`sleeps` and `time` are 0):
an error raised by the send of an item does not discard the connection and
does not trigger the 5-second reconnect delay, because the inner
`try/except` of `ws_uploader` swallows it. -/
theorem send_error_keeps_connection_counterexample :
    (ws_run [⟨true, false⟩, ⟨true, false⟩, ⟨true, false⟩, ⟨true, false⟩,
        ⟨true, false⟩] wsSendFail).pc = WsPC.innerCheck
    ∧ (ws_run [⟨true, false⟩, ⟨true, false⟩, ⟨true, false⟩, ⟨true, false⟩,
        ⟨true, false⟩] wsSendFail).connects = 1
    ∧ (ws_run [⟨true, false⟩, ⟨true, false⟩, ⟨true, false⟩, ⟨true, false⟩,
        ⟨true, false⟩] wsSendFail).sleeps = 0
    ∧ (ws_run [⟨true, false⟩, ⟨true, false⟩, ⟨true, false⟩, ⟨true, false⟩,
        ⟨true, false⟩] wsSendFail).time = 0
    ∧ (ws_run [⟨true, false⟩, ⟨true, false⟩, ⟨true, false⟩, ⟨true, false⟩,
        ⟨true, false⟩] wsSendFail).fs = [("f1", 7)]
    ∧ (ws_run [⟨true, false⟩, ⟨true, false⟩, ⟨true, false⟩, ⟨true, false⟩,
        ⟨true, false⟩] wsSendFail).itemsDone = 1 := by
  decide

/-- Claim C3 as amended: the uploader loop never exits on its own while the
shutdown event is unset, whatever the environment does; and a failed
connect attempt puts the thread into the 5-second retry sleep, after which
it is back at the outer guard with 5 more seconds elapsed and no new
connection made.  (An error raised by the send of an item, by contrast,
keeps the connection: see the counterexample.) -/
theorem ws_uploader_reconnect_spec (s : WsState) (os : List WsOracle)
    (o o' : WsOracle) :
    (s.stop = false → s.pc ≠ WsPC.exited → (ws_run os s).pc ≠ WsPC.exited)
    ∧ (s.pc = .connecting → o.connectOk = false →
        (ws_uploader_step o s).pc = .sleeping
        ∧ (ws_uploader_step o' (ws_uploader_step o s)).pc = .outerCheck
        ∧ (ws_uploader_step o' (ws_uploader_step o s)).time = s.time + 5
        ∧ (ws_uploader_step o' (ws_uploader_step o s)).connects = s.connects) := by
  constructor
  · intro h1 h2
    induction os generalizing s with
    | nil => exact h2
    | cons oh ot ih =>
      have hstep := ws_step_no_exit oh s h1 h2
      exact ih (ws_uploader_step oh s) hstep.1 hstep.2
  · intro hpc hok
    simp [ws_uploader_step, hpc, hok]

/-- Witness for C3: a fresh uploader that cannot connect has not exited
after a step. -/
theorem ws_uploader_reconnect_spec_witness :
    (ws_run [⟨false, false⟩] wsSendFail).pc ≠ WsPC.exited :=
  (ws_uploader_reconnect_spec wsSendFail [⟨false, false⟩] ⟨false, false⟩
    ⟨false, false⟩).1 rfl (by decide)

/-! ## Claim C4 -/

/-- Claim C4: for every result set, an all-pass set lights the top LED
GREEN; with failures in more than one category the top LED is WHITE; with
failures in exactly one category the top LED shows that category's colour
and the middle LED the failing test's specific colour when exactly one test
of the category failed, else WHITE; and the concrete set with only
`rtc_responding` false gives top RED (the bus-group colour) and middle
CYAN. -/
theorem factory_led_encoding :
    (∀ a b c d e f g h i : Bool, ledClaim ⟨a, b, c, d, e, f, g, h, i⟩)
    ∧ display_results_on_leds ⟨true, true, true, true, true, false, true, true, true⟩
        = (Colour.RED, Colour.CYAN) := by
  constructor
  · decide
  · decide

/-- Witness for C4: failures in both the modem and the bus-device category
give a WHITE top LED. -/
theorem factory_led_encoding_witness :
    (display_results_on_leds ⟨false, true, true, true, false, true, true, true, true⟩).1
      = Colour.WHITE :=
  ((factory_led_encoding.1 false true true true false true true true true).2
    (by decide)).1 (by decide)

/-! ## Claim C5 -/

/-- Counterexample to C5 as stated: when no test group completes, `run`
never calls `write_results_to_disk`, so nothing is persisted — even though
every individual entry of the result set is true — and the run reports
`False`.  This contradicts "computed and persisted ... regardless of
whether the three test groups completed". -/
theorem factory_run_persists_counterexample :
    (FactoryTest.run false false false
        ⟨true, true, true, true, true, true, true, true, true⟩).written = none
    ∧ (FactoryTest.run false false false
        ⟨true, true, true, true, true, true, true, true, true⟩).ret = false
    ∧ allResultsPassed ⟨true, true, true, true, true, true, true, true, true⟩ = true := by
  decide

/-- Claim C5 as amended: `run` returns true iff all three groups completed;
when they did, `all_passed` is the AND over every boolean entry and exactly
that value is persisted in the results file; when any group failed to
complete, the run reports `False`, `all_passed` keeps its initial `False`
regardless of any individually-true entries, and no results file is
written. -/
theorem factory_run_all_passed_spec (cm ci cr : Bool) (r : Results) :
    (FactoryTest.run cm ci cr r).ret = (cm && ci && cr)
    ∧ ((cm && ci && cr) = true →
        (FactoryTest.run cm ci cr r).all_passed = allResultsPassed r
        ∧ (FactoryTest.run cm ci cr r).written
            = some (get_results_string r (allResultsPassed r)))
    ∧ ((cm && ci && cr) = false →
        (FactoryTest.run cm ci cr r).all_passed = false
        ∧ (FactoryTest.run cm ci cr r).written = none) := by
  cases hc : (cm && ci && cr) <;> simp [FactoryTest.run, hc]

/-- Witness for C5: the modem group did not complete, so nothing is written
and `all_passed` is false despite all-true entries. -/
theorem factory_run_all_passed_spec_witness :
    (FactoryTest.run false true true
        ⟨true, true, true, true, true, true, true, true, true⟩).all_passed = false
    ∧ (FactoryTest.run false true true
        ⟨true, true, true, true, true, true, true, true, true⟩).written = none :=
  (factory_run_all_passed_spec false true true
    ⟨true, true, true, true, true, true, true, true, true⟩).2.2 (by decide)

/-! ## Claim C6 -/

/-- Claim C6: writing the results file (whose content is
`get_results_string`) and then parsing it with `passed_at_factory` recovers
exactly the `all_tests_passed` boolean that was written, for every result
set and for both the all-passed and the not-all-passed case. -/
theorem results_file_round_trip (r : Results) (ap : Bool) :
    passed_at_factory (some (get_results_string r ap)) = some ap := by
  obtain ⟨a, b, c, d, e, f, g, h, i⟩ := r
  simp only [passed_at_factory, get_results_string, resultsItems, List.map,
    List.cons_append, List.nil_append]
  rw [passedScan_skip _ _ (by decide), passedScan_skip _ _ (by decide),
    passedScan_skip _ _ (by decide), passedScan_skip _ _ (by decide),
    passedScan_skip _ _ (by cases a <;> decide),
    passedScan_skip _ _ (by cases b <;> decide),
    passedScan_skip _ _ (by cases c <;> decide),
    passedScan_skip _ _ (by cases d <;> decide),
    passedScan_skip _ _ (by cases e <;> decide),
    passedScan_skip _ _ (by cases f <;> decide),
    passedScan_skip _ _ (by cases g <;> decide),
    passedScan_skip _ _ (by cases h <;> decide),
    passedScan_skip _ _ (by cases i <;> decide)]
  cases ap <;> decide

/-! ## Claim C7 -/

/-- Counterexample to C7 as stated: with a first reading of RSSI 0 — not
`None` and not the absent value 99, hence a non-absent reading by the
claim's criterion — and nothing afterwards, all six polls run and
`modem_towers_found` is recorded `False`, because the Python guard
`if rssi and rssi != 99` treats the reading 0 as falsy and does not stop
the poll, and the recorded value looks only at the last reading. -/
theorem modem_towers_found_counterexample :
    (modem_towers_found readingsZero).1 = false
    ∧ rssiNonAbsent (readingsZero 0) = true
    ∧ (modem_towers_found readingsZero).2 = 6 := by
  decide

/-- Claim C7 as amended: the modem test polls the signal strength at least
once and at most 6 times (at 1-second intervals), and records
`modem_towers_found` true iff some polled reading is truthy and non-absent
(not `None`, not 0 and not 99) — which stops the poll — or, failing that,
the final sixth reading is non-absent (not `None` and not 99). -/
theorem modem_towers_found_spec (readings : Nat → Option Nat) :
    1 ≤ (modem_towers_found readings).2
    ∧ (modem_towers_found readings).2 ≤ 6
    ∧ (modem_towers_found readings).1
        = (rssiBreaks (readings 0) || rssiBreaks (readings 1)
            || rssiBreaks (readings 2) || rssiBreaks (readings 3)
            || rssiBreaks (readings 4) || rssiBreaks (readings 5)
            || rssiNonAbsent (readings 5)) := by
  simp only [modem_towers_found]
  by_cases h0 : rssiBreaks (readings 0) = true <;>
  by_cases h1 : rssiBreaks (readings 1) = true <;>
  by_cases h2 : rssiBreaks (readings 2) = true <;>
  by_cases h3 : rssiBreaks (readings 3) = true <;>
  by_cases h4 : rssiBreaks (readings 4) = true <;>
  by_cases h5 : rssiBreaks (readings 5) = true <;>
  simp_all [pollRssi, rssiBreaks_nonAbsent]

/-! ## Claim C8 -/

/-- Counterexample to C8 as stated: with reboot disallowed and the default
300-second duration, `blink_error_leds` blinks for exactly 300 seconds and
then returns without rebooting — it does not continue blinking
indefinitely.  (The only non-returning branch is `dur = None`, which sleeps
without blinking regardless of the reboot setting.) -/
theorem blink_error_leds_counterexample :
    blink_error_leds false (some 300)
      = BlinkOutcome.comesBack (blinkLoop 300 true) false
    ∧ (blinkLoop 300 true).length = 300 :=
  ⟨rfl, blinkLoop_length 300 true⟩

/-- Claim C8 as amended: with a finite duration the recovery path alternates
all status LEDs on/off at 1 Hz for exactly that many seconds (starting on,
even seconds on, odd seconds off) and then returns, issuing an OS-level
reboot exactly when reboot is permitted; with no duration the function
never returns, sleeping forever without further blinking. -/
theorem blink_error_leds_spec (ra : Bool) (d t : Nat) (ht : t < d) :
    blink_error_leds ra (some d) = .comesBack (blinkLoop d true) ra
    ∧ (blinkLoop d true).length = d
    ∧ (blinkLoop d true).getD t false = decide (t % 2 = 0)
    ∧ blink_error_leds ra none = .sleepsForever [] := by
  refine ⟨rfl, blinkLoop_length d true, ?_, rfl⟩
  rw [blinkLoop_getD d t true ht]
  rcases Nat.mod_two_eq_zero_or_one t with hm | hm <;> simp [hm]

/-- Witness for C8: the default 300-second blink with reboot allowed. -/
theorem blink_error_leds_spec_witness :
    blink_error_leds true (some 300) = .comesBack (blinkLoop 300 true) true
    ∧ (blinkLoop 300 true).length = 300
    ∧ (blinkLoop 300 true).getD 3 false = decide (3 % 2 = 0)
    ∧ blink_error_leds true none = .sleepsForever [] :=
  blink_error_leds_spec true 300 3 (by decide)

/-! ## Claim C9 -/

/-- Claim C9: `LED.set` raises (returning no writes, so nothing is clamped
and no channel is driven) exactly when some channel of the LED is
hard-wired to a value different from the colour's value on the
corresponding RGB component; otherwise it writes all three channels with
the colour's RGB values. -/
theorem led_set_hardwired_check (led : LED) (c : Colour) :
    ((∃ e, led.set c = Except.error e) ↔ hardWiredMismatch led c = true)
    ∧ (hardWiredMismatch led c = false →
        led.set c = Except.ok
          [(led.red, (COLOUR_THEORY c).1), (led.green, (COLOUR_THEORY c).2.1),
            (led.blue, (COLOUR_THEORY c).2.2)]) := by
  unfold LED.set hardWiredMismatch
  by_cases h1 : chanClash led.red (COLOUR_THEORY c).1 <;>
  by_cases h2 : chanClash led.green (COLOUR_THEORY c).2.1 <;>
  by_cases h3 : chanClash led.blue (COLOUR_THEORY c).2.2 <;>
  simp [h1, h2, h3]

/-- Witness for C9: the bottom LED (red channel hard-wired on) can display
RED, and `set` issues the three writes. -/
theorem led_set_hardwired_check_witness :
    LED.set ⟨Chan.wired true, Chan.pin 1, Chan.pin 0⟩ Colour.RED
      = Except.ok [(Chan.wired true, 1), (Chan.pin 1, 0), (Chan.pin 0, 0)] :=
  (led_set_hardwired_check ⟨Chan.wired true, Chan.pin 1, Chan.pin 0⟩ Colour.RED).2
    (by decide)

/-! ## Claim C10 -/

/-- Claim C10: when the persisted results file does not exist,
`passed_at_factory` catches the `FileNotFoundError` and returns `False` — a
never-tested unit reports as not having passed at the factory, not as an
error. -/
theorem passed_at_factory_missing_file : passed_at_factory none = some false := rfl

end Buggd
